import Mathlib

/-
Verification development for the Jira facade module (jira.py).

The module is embedded shallowly: Python dict/list/scalar values become the
inductive type `JVal`; a Python expression that can raise becomes a value of
`Except JErr _`; the external collaborators (the JIRA HTTP client session,
Django settings, the request object) are abstracted as parameters, so that
each facade method is a pure function from its inputs and the raw backend
response to its result or raised error.
-/

set_option autoImplicit false

namespace JiraSpec

/-- A Python value as it appears in the dicts and lists handled by jira.py:
None, strings, ints, bools, lists, and dicts (modelled as insertion-ordered
association lists; real dicts have unique keys, lookup takes the first hit). -/
inductive JVal where
  | null
  | str (s : String)
  | num (n : Int)
  | bool (b : Bool)
  | arr (items : List JVal)
  | obj (kvs : List (String × JVal))

/-- The exceptions the embedded code can raise.  `keyError`, `attributeError`,
`typeError`, `indexError` and `valueError` are the Python built-ins the source
actually produces; `remoteError` stands for a failure reported by the backend
HTTP client (abstracted collaborator). -/
inductive JErr where
  | keyError (k : String)
  | attributeError (msg : String)
  | typeError (msg : String)
  | indexError
  | valueError (msg : String)
  | remoteError (msg : String)
deriving DecidableEq, Repr

/-- First-hit lookup in an association list, as in a Python dict (keys are
unique in a real dict, so first-hit agrees with dict lookup). -/
def lookupKV (kvs : List (String × JVal)) (k : String) : Option JVal :=
  (kvs.find? (fun p => p.1 == k)).map (fun p => p.2)

/-- Python subscript `v[k]` with a string key: a dict gives the value or
raises KeyError; any other value raises TypeError. -/
def pyGetItem (v : JVal) (k : String) : Except JErr JVal :=
  match v with
  | .obj kvs =>
    match lookupKV kvs k with
    | some x => .ok x
    | none => .error (.keyError k)
  | _ => .error (.typeError "not subscriptable")

/-- Python `v.get(k, None)`: on a dict, the value or None; on anything else
(including None) there is no `get` attribute, so AttributeError. -/
def pyGet (v : JVal) (k : String) : Except JErr JVal :=
  match v with
  | .obj kvs => .ok ((lookupKV kvs k).getD .null)
  | _ => .error (.attributeError "get")

/-- Python truthiness of a value, as used by `if data[...]` and the reporter
guard. -/
def pyTruthy : JVal → Bool
  | .null => false
  | .str s => s != ""
  | .num n => n != 0
  | .bool b => b
  | .arr items => !items.isEmpty
  | .obj kvs => !kvs.isEmpty

/-- Python `str()` of a value, as applied by `"...".format(...)`.  The source
only ever formats scalar draft fields; the rendering of containers is not
needed by any mapped field and is given a fixed placeholder. -/
def pyStr : JVal → String
  | .null => "None"
  | .str s => s
  | .num n => toString n
  | .bool b => if b then "True" else "False"
  | .arr _ => "[...]"
  | .obj _ => "\x7b...\x7d"

/-- The `Source` enum of jira.py: members A and B. -/
inductive Source where
  | A
  | B
deriving DecidableEq, Repr

/-- The value passed as the `source` constructor argument.  Python does not
enforce the annotation, so besides a genuine enum member any other value can
arrive; `invalid r` stands for such a value, `r` being its string rendering
used by the `"Invalid source: ..."` message. -/
inductive SourceArg where
  | src (s : Source)
  | invalid (r : String)
deriving DecidableEq, Repr

/-- The kwargs of one `create_issue` call, in the order they are written at
the call site: the exact payload handed to the backend client. -/
abbrev Payload := List (String × JVal)

/-- Jira.__create_ticket_in_a: builds the kwargs of the `create_issue` call
for backend A.  Python evaluates the kwargs left to right
(`data["product_id"]`, then the constant issuetype, then `data["name"]`),
so a missing key raises KeyError before any network call. -/
def create_ticket_in_a (data : JVal) : Except JErr Payload := do
  let pid ← pyGetItem data "product_id"
  let nm ← pyGetItem data "name"
  pure [("project", .obj [("id", pid)]),
        ("issuetype", .obj [("id", .num 10001)]),
        ("summary", nm)]

/-- Jira.__create_ticket_in_b: builds the kwargs of the `create_issue` call
for backend B, in source evaluation order: summary = data["name"], the
reporter from the request user, customfield_23249 formatted from as_a,
i_want, so_that (format string "X , Y, Z": separator space-comma-space, then
comma-space), customfield_23250 = data["product"].get("name"), and the
priority dict chosen by the truthiness of data["is_high_priority"]. -/
def create_ticket_in_b (username : String) (data : JVal) : Except JErr Payload := do
  let nm ← pyGetItem data "name"
  let asA ← pyGetItem data "as_a"
  let iWant ← pyGetItem data "i_want"
  let soThat ← pyGetItem data "so_that"
  let product ← pyGetItem data "product"
  let prodName ← pyGet product "name"
  let isHigh ← pyGetItem data "is_high_priority"
  pure [("project", .obj [("id", .num 10407)]),
        ("issuetype", .obj [("id", .num 16704)]),
        ("summary", nm),
        ("reporter", .obj [("name", .str username)]),
        ("customfield_23249",
          .str (pyStr asA ++ " , " ++ pyStr iWant ++ ", " ++ pyStr soThat)),
        ("customfield_23250", prodName),
        ("priority",
          if pyTruthy isHigh then JVal.obj [("id", .str "2")]
          else JVal.obj [("id", .str "4")])]

/-- Jira.create_ticket: dispatches on the instance source and sends the
mapped payload to the backend client (abstracted as `backend`, which returns
the created issue key or raises a remote error). -/
def create_ticket (source : SourceArg) (username : String)
    (backend : Payload → Except JErr String) (data : JVal) : Except JErr String :=
  match source with
  | .src .A => (create_ticket_in_a data).bind backend
  | .src .B => (create_ticket_in_b username data).bind backend
  | .invalid r => .error (.valueError ("Invalid source: " ++ r))

/-- A board object as returned by the `boards` call of the client; the source
only reads its `id` attribute. -/
structure Board where
  id : Int
deriving DecidableEq, Repr

/-- Python `lst[0]`: IndexError on an empty list, else the head. -/
def pyIndexZero : List Board → Except JErr Board
  | [] => .error .indexError
  | b :: _ => .ok b

/-- Jira.get_first_board: lists the boards of the project through the client
(abstracted as `backendBoards`, which may raise a remote error) and takes
`[0].id` of the result — an empty listing therefore raises IndexError. -/
def get_first_board (backendBoards : Int → Except JErr (List Board))
    (product_id : Int) : Except JErr Int := do
  let bs ← backendBoards product_id
  let b ← pyIndexZero bs
  pure b.id

/-- A sprint object as returned by the `sprints` call of the client; the
source reads the five attributes below. -/
structure Sprint where
  id : Int
  name : String
  state : String
  startDate : JVal
  endDate : JVal

/-- Jira.__sprint_serializer: maps each raw sprint, in received order, to the
five-key dict of id, name, state, startDate, endDate. -/
def sprint_serializer (data : List Sprint) : List JVal :=
  data.map (fun s => JVal.obj
    [("id", .num s.id), ("name", .str s.name), ("state", .str s.state),
     ("startDate", s.startDate), ("endDate", s.endDate)])

/-- Jira.__normalize_jira_user_response: reads name, emailAddress,
avatarUrls["48x48"] and displayName of a raw user dict, in that order, into
the normalized user dict. -/
def normalize_jira_user_response (jira_response : JVal) : Except JErr JVal := do
  let nm ← pyGetItem jira_response "name"
  let email ← pyGetItem jira_response "emailAddress"
  let avatars ← pyGetItem jira_response "avatarUrls"
  let avatar ← pyGetItem avatars "48x48"
  let full ← pyGetItem jira_response "displayName"
  pure (.obj [("username", nm), ("email", email), ("avatar", avatar),
              ("full_name", full)])

/-- The loop body of Jira.__normalize_jira_issues_response for one raw issue:
key and fields["summary"] by subscript (KeyError if absent); the reporter
normalized when `fields.get("reporter", None)` is truthy, else None; status
and priority by subscript on fields followed by `.get("name", None)` (so a
missing status or priority key raises KeyError, a None value raises
AttributeError, while a present object lacking "name" gives None); created
by `fields.get("created", None)`. -/
def normalize_issue (i : JVal) : Except JErr JVal := do
  let key ← pyGetItem i "key"
  let fields ← pyGetItem i "fields"
  let summary ← pyGetItem fields "summary"
  let rraw ← pyGet fields "reporter"
  let reporter ←
    if pyTruthy rraw then normalize_jira_user_response rraw
    else pure JVal.null
  let st ← pyGetItem fields "status"
  let status ← pyGet st "name"
  let pr ← pyGetItem fields "priority"
  let priority ← pyGet pr "name"
  let created ← pyGet fields "created"
  pure (.obj [("key", key), ("summary", summary), ("reporter", reporter),
              ("status", status), ("priority", priority), ("created", created)])

/-- The statement `if "expand" in jira_response: del jira_response["expand"]`:
it mutates the local raw-response dict in place (order of the remaining keys
preserved); the mutated dict is then only read at key "issues". -/
def pyDelExpand (v : JVal) : JVal :=
  match v with
  | .obj kvs =>
    if (lookupKV kvs "expand").isSome
    then .obj (kvs.filter (fun p => p.1 != "expand"))
    else .obj kvs
  | w => w

/-- Jira.__normalize_jira_issues_response: deletes "expand" from the raw
response dict, then builds and returns the LIST of normalized issues — the
function returns only that list, so the raw dict (and with it startAt,
maxResults, total and any other metadata) is discarded.  The loop raises out
of the whole call as soon as one issue fails to normalize. -/
def normalize_jira_issues_response (jira_response : JVal) : Except JErr JVal := do
  let resp := pyDelExpand jira_response
  let rawIssues ← pyGetItem resp "issues"
  match rawIssues with
  | .arr items => do
    let issues ← items.mapM normalize_issue
    pure (.arr issues)
  | _ => .error (.typeError "not iterable")

/-- Jira.search_issues, given the raw backend response `res` of the
`search_issues(jql, fields=..., json_result=True, startAt=..., maxResults=10)`
client call (the round trip itself is the external collaborator): the method
returns exactly the result of the normalizer. -/
def search_issues (res : JVal) : Except JErr JVal :=
  normalize_jira_issues_response res

/-- The per-backend entries of django settings used by the connection
helpers: settings.A and settings.B each carry url, username, password. -/
structure Settings where
  aUrl : String
  aUser : String
  aPass : String
  bUrl : String
  bUser : String
  bPass : String
deriving DecidableEq, Repr

/-- An authenticated JIRA client session as configured by the connection
helpers: server URL, verify flag, the contextUser header, and the basic-auth
service credentials. -/
structure Conn where
  server : String
  verify : Bool
  contextUser : String
  authUser : String
  authPass : String
deriving DecidableEq, Repr

/-- Jira.__connect_to_a: opens a session against settings.A with
verify=False, the caller username as contextUser header, and the A service
account as basic auth. -/
def connect_to_a (st : Settings) (username : String) : Conn :=
  ⟨st.aUrl, false, username, st.aUser, st.aPass⟩

/-- Jira.__connect_to_b: opens a session against settings.B with
verify=False, the caller username as contextUser header, and the B service
account as basic auth. -/
def connect_to_b (st : Settings) (username : String) : Conn :=
  ⟨st.bUrl, false, username, st.bUser, st.bPass⟩

/-- Jira.__define_connection_source: dispatches on self.source; a value that
is neither Source.A nor Source.B raises ValueError("Invalid source: ..."). -/
def define_connection_source (st : Settings) (username : String) :
    SourceArg → Except JErr Conn
  | .src .A => .ok (connect_to_a st username)
  | .src .B => .ok (connect_to_b st username)
  | .invalid r => .error (.valueError ("Invalid source: " ++ r))

/-- The attribute state of the (unique) Jira object.  Attributes are Options
because a Python object starts with no attributes and __init__ may raise
after setting only some of them. -/
structure JiraObj where
  source : Option SourceArg
  username : Option String
  auth_jira : Option Conn
deriving DecidableEq, Repr

/-- The class-level state of Jira: the `_instance` slot read and written by
__new__.  At most one Jira object ever exists, so every handle returned by a
construction aliases the object stored here. -/
structure ClsState where
  inst : Option JiraObj
deriving DecidableEq, Repr

/-- Jira.__new__: if the `_instance` slot is empty, allocate a blank object
and store it; either way return the stored object (every construction yields
the same, shared object). -/
def jiraNew (s : ClsState) : JiraObj × ClsState :=
  match s.inst with
  | some o => (o, s)
  | none =>
    let o : JiraObj := ⟨none, none, none⟩
    (o, ⟨some o⟩)

/-- One evaluation of the constructor expression `Jira(request, source)`:
__new__ returns the shared object, then __init__ runs on it, setting
self.source and self.request and then self.auth_jira from
__define_connection_source.  If the connection helper raises, the exception
propagates (no handle is returned to the caller) with source and username
already overwritten and auth_jira left as it was; on success the shared
object carries the new source, username and a freshly opened session.  The
returned Unit handle stands for the reference to the shared object, which is
always the one in the resulting state. -/
def jiraConstruct (st : Settings) (s : ClsState) (username : String)
    (source : SourceArg) : Except JErr Unit × ClsState :=
  let (o, _s1) := jiraNew s
  let o1 : JiraObj := { o with source := some source, username := some username }
  match define_connection_source st username source with
  | .ok conn => (.ok (), ⟨some { o1 with auth_jira := some conn }⟩)
  | .error e => (.error e, ⟨some o1⟩)

/-- The draft keys read by subscript (`data[...]`) in the payload mapper of
each backend, listed in Python evaluation order of the kwargs. -/
def required_draft_keys : Source → List String
  | .A => ["product_id", "name"]
  | .B => ["name", "as_a", "i_want", "so_that", "product", "is_high_priority"]

/-- Concrete per-backend settings used by the closed theorems. -/
def exSettings : Settings :=
  ⟨"https://a.example", "svc-a", "pw-a", "https://b.example", "svc-b", "pw-b"⟩

/-- A concrete raw search response carrying an "expand" key and pagination
metadata (startAt, maxResults, total) next to one issue that lacks a
reporter field. -/
def rawSearchResponse : JVal :=
  .obj [("expand", .str "schema,names"),
        ("startAt", .num 0),
        ("maxResults", .num 10),
        ("total", .num 1),
        ("issues", .arr [
          .obj [("key", .str "PRJ-1"),
                ("fields", .obj
                  [("summary", .str "First issue"),
                   ("status", .obj [("name", .str "Open")]),
                   ("priority", .obj [("name", .str "High")]),
                   ("created", .str "2024-01-01T00:00:00.000+0000")])]])]

/-- C7: for selector A and every valid draft (a dict carrying product_id and
name), create_ticket hands the backend exactly the fields project.id =
draft.product_id, issuetype.id = 10001 and summary = draft.name, and no
other field — in particular no reporter, no custom field, no priority. -/
theorem create_ticket_a_payload_exact
    (u : String) (backend : Payload → Except JErr String)
    (kvs : List (String × JVal)) (pid nm : JVal)
    (h1 : lookupKV kvs "product_id" = some pid)
    (h2 : lookupKV kvs "name" = some nm) :
    create_ticket (.src .A) u backend (.obj kvs) = backend
      [("project", .obj [("id", pid)]),
       ("issuetype", .obj [("id", .num 10001)]),
       ("summary", nm)] := by
  simp [create_ticket, create_ticket_in_a, pyGetItem, Bind.bind, Except.bind,
        pure, Except.pure, h1, h2]

/-- Witness for create_ticket_a_payload_exact at a concrete draft. -/
theorem create_ticket_a_payload_exact_w :
    create_ticket (.src .A) "alice" (fun _ => .ok "PRJ-7")
      (.obj [("product_id", .num 123), ("name", .str "T")]) = .ok "PRJ-7" :=
  create_ticket_a_payload_exact "alice" (fun _ => .ok "PRJ-7")
    [("product_id", .num 123), ("name", .str "T")] (.num 123) (.str "T") rfl rfl

/-- C5: for selector B and every valid draft, create_ticket hands the
backend project.id = 10407, issuetype.id = 16704, summary = draft.name,
reporter = the caller identity, customfield_23249 the string X ++ " , " ++
Y ++ ", " ++ Z for X, Y, Z = draft.as_a, draft.i_want, draft.so_that,
customfield_23250 = draft.product.name, and priority.id = "2" when
draft.is_high_priority is true, else "4". -/
theorem create_ticket_b_payload_exact
    (u nm aA iW sT pn : String) (hp : Bool)
    (pkvs kvs : List (String × JVal))
    (backend : Payload → Except JErr String)
    (h1 : lookupKV kvs "name" = some (.str nm))
    (h2 : lookupKV kvs "as_a" = some (.str aA))
    (h3 : lookupKV kvs "i_want" = some (.str iW))
    (h4 : lookupKV kvs "so_that" = some (.str sT))
    (h5 : lookupKV kvs "product" = some (.obj pkvs))
    (h6 : lookupKV pkvs "name" = some (.str pn))
    (h7 : lookupKV kvs "is_high_priority" = some (.bool hp)) :
    create_ticket (.src .B) u backend (.obj kvs) = backend
      [("project", .obj [("id", .num 10407)]),
       ("issuetype", .obj [("id", .num 16704)]),
       ("summary", .str nm),
       ("reporter", .obj [("name", .str u)]),
       ("customfield_23249", .str (aA ++ " , " ++ iW ++ ", " ++ sT)),
       ("customfield_23250", .str pn),
       ("priority", .obj [("id", .str (if hp then "2" else "4"))])] := by
  cases hp <;>
    simp [create_ticket, create_ticket_in_b, pyGetItem, pyGet, pyStr,
          pyTruthy, Bind.bind, Except.bind, pure, Except.pure,
          h1, h2, h3, h4, h5, h6, h7]

/-- Witness for create_ticket_b_payload_exact at a concrete draft. -/
theorem create_ticket_b_payload_exact_w :
    create_ticket (.src .B) "bob" (fun _ => .ok "STORY-9")
      (.obj [("name", .str "N"), ("as_a", .str "X"), ("i_want", .str "Y"),
             ("so_that", .str "Z"), ("product", .obj [("name", .str "P")]),
             ("is_high_priority", .bool true)]) = .ok "STORY-9" :=
  create_ticket_b_payload_exact "bob" "N" "X" "Y" "Z" "P" true
    [("name", .str "P")]
    [("name", .str "N"), ("as_a", .str "X"), ("i_want", .str "Y"),
     ("so_that", .str "Z"), ("product", .obj [("name", .str "P")]),
     ("is_high_priority", .bool true)]
    (fun _ => .ok "STORY-9") rfl rfl rfl rfl rfl rfl rfl

/-- C6 counterexample: the claim says the composite field joins as_a,
i_want, so_that with the single separator ", " between each pair, but at
the draft (as_a, i_want, so_that) = ("A", "B", "C") the code sends
"A , B, C" — the first separator is " , " (space, comma, space) — which
differs from the claimed join "A, B, C". -/
theorem composite_field_counterexample :
    (create_ticket_in_b "u" (.obj
      [("name", .str "N"), ("as_a", .str "A"), ("i_want", .str "B"),
       ("so_that", .str "C"), ("product", .obj [("name", .str "P")]),
       ("is_high_priority", .bool true)])).toOption.bind
        (fun p => lookupKV p "customfield_23249") = some (.str "A , B, C")
    ∧ ("A , B, C" : String) ≠ String.intercalate ", " ["A", "B", "C"] :=
  ⟨rfl, by decide⟩

/-- C6 amended: for selector B and every valid draft, the composite
free-text field sent by create_ticket equals draft.as_a, draft.i_want and
draft.so_that joined with " , " (space-comma-space) between the first pair
and ", " (comma-space) between the second pair. -/
theorem composite_field_separators
    (u nm aA iW sT pn : String) (hp : Bool)
    (pkvs kvs : List (String × JVal))
    (h1 : lookupKV kvs "name" = some (.str nm))
    (h2 : lookupKV kvs "as_a" = some (.str aA))
    (h3 : lookupKV kvs "i_want" = some (.str iW))
    (h4 : lookupKV kvs "so_that" = some (.str sT))
    (h5 : lookupKV kvs "product" = some (.obj pkvs))
    (h6 : lookupKV pkvs "name" = some (.str pn))
    (h7 : lookupKV kvs "is_high_priority" = some (.bool hp)) :
    (create_ticket_in_b u (.obj kvs)).toOption.bind
      (fun p => lookupKV p "customfield_23249")
      = some (.str (aA ++ " , " ++ iW ++ ", " ++ sT)) := by
  cases hp <;>
    simp [create_ticket_in_b, pyGetItem, pyGet, pyStr, pyTruthy,
          Bind.bind, Except.bind, pure, Except.pure, Except.toOption,
          Option.bind, h1, h2, h3, h4, h5, h6, h7] <;> rfl

/-- Witness for composite_field_separators at a concrete draft. -/
theorem composite_field_separators_w :
    (create_ticket_in_b "u" (.obj
      [("name", .str "N"), ("as_a", .str "X"), ("i_want", .str "Y"),
       ("so_that", .str "Z"), ("product", .obj [("name", .str "P")]),
       ("is_high_priority", .bool false)])).toOption.bind
        (fun p => lookupKV p "customfield_23249") = some (.str "X , Y, Z") :=
  composite_field_separators "u" "N" "X" "Y" "Z" "P" false
    [("name", .str "P")]
    [("name", .str "N"), ("as_a", .str "X"), ("i_want", .str "Y"),
     ("so_that", .str "Z"), ("product", .obj [("name", .str "P")]),
     ("is_high_priority", .bool false)]
    rfl rfl rfl rfl rfl rfl rfl

/-- C10: for selector B and every draft whose product entry is a dict
lacking a "name" key, create_ticket does not raise locally: the full
payload is handed to the backend with customfield_23250 = None. -/
theorem product_without_name_sends_null
    (u nm aA iW sT : String) (hp : Bool)
    (pkvs kvs : List (String × JVal))
    (backend : Payload → Except JErr String)
    (h1 : lookupKV kvs "name" = some (.str nm))
    (h2 : lookupKV kvs "as_a" = some (.str aA))
    (h3 : lookupKV kvs "i_want" = some (.str iW))
    (h4 : lookupKV kvs "so_that" = some (.str sT))
    (h5 : lookupKV kvs "product" = some (.obj pkvs))
    (h6 : lookupKV pkvs "name" = none)
    (h7 : lookupKV kvs "is_high_priority" = some (.bool hp)) :
    create_ticket (.src .B) u backend (.obj kvs) = backend
      [("project", .obj [("id", .num 10407)]),
       ("issuetype", .obj [("id", .num 16704)]),
       ("summary", .str nm),
       ("reporter", .obj [("name", .str u)]),
       ("customfield_23249", .str (aA ++ " , " ++ iW ++ ", " ++ sT)),
       ("customfield_23250", .null),
       ("priority", .obj [("id", .str (if hp then "2" else "4"))])] := by
  cases hp <;>
    simp [create_ticket, create_ticket_in_b, pyGetItem, pyGet, pyStr,
          pyTruthy, Bind.bind, Except.bind, pure, Except.pure,
          h1, h2, h3, h4, h5, h6, h7]

/-- Witness for product_without_name_sends_null at a concrete draft. -/
theorem product_without_name_sends_null_w :
    create_ticket (.src .B) "bob" (fun _ => .ok "STORY-3")
      (.obj [("name", .str "N"), ("as_a", .str "X"), ("i_want", .str "Y"),
             ("so_that", .str "Z"), ("product", .obj [("id", .num 5)]),
             ("is_high_priority", .bool false)]) = .ok "STORY-3" :=
  product_without_name_sends_null "bob" "N" "X" "Y" "Z" false
    [("id", .num 5)]
    [("name", .str "N"), ("as_a", .str "X"), ("i_want", .str "Y"),
     ("so_that", .str "Z"), ("product", .obj [("id", .num 5)]),
     ("is_high_priority", .bool false)]
    (fun _ => .ok "STORY-3") rfl rfl rfl rfl rfl rfl rfl

/-- C2 counterexample: the claim says an empty board listing makes
get_first_board fail with a dedicated empty-collection error and not with an
unhandled index-out-of-range fault; but on a backend returning the empty
list the code raises exactly the unhandled IndexError of `[0]` (the module
defines no empty-collection error at all). -/
theorem get_first_board_empty_counterexample :
    get_first_board (fun _ => .ok []) 7 = .error .indexError := rfl

/-- C2 amended: for every project id, an empty board listing makes
get_first_board fail with the unhandled index-out-of-range fault
(IndexError) of the source-level `[0]` subscript — no dedicated
empty-collection error exists in the code — and a non-empty listing returns
the id of the first board in backend-returned order. -/
theorem get_first_board_amended (bs : List Board) (pid : Int) :
    get_first_board (fun _ => .ok bs) pid =
      match bs with
      | [] => .error .indexError
      | b :: _ => .ok b.id := by
  cases bs <;> rfl

/-- C3: evaluates search_issues on a raw response carrying "expand" and the
pagination metadata startAt, maxResults, total: the method returns ONLY the
list of normalized issues — the result is a list, not a dict, so none of
the metadata keys of the raw response survive into the returned value,
contrary to the claim that all top-level metadata keys except "expand" are
preserved. -/
theorem search_issues_returns_only_issue_list
    (kvs : List (String × JVal)) :
    search_issues rawSearchResponse = .ok (.arr
      [.obj [("key", .str "PRJ-1"), ("summary", .str "First issue"),
             ("reporter", .null), ("status", .str "Open"),
             ("priority", .str "High"),
             ("created", .str "2024-01-01T00:00:00.000+0000")]]) ∧
    search_issues rawSearchResponse ≠ .ok (.obj kvs) := by
  refine ⟨rfl, ?_⟩
  intro h
  injection h with h2
  exact JVal.noConfusion h2

/-- C9: for every settings, caller identity and unrecognized selector value,
facade construction fails with the ValueError("Invalid source: ...") that
the spec taxonomy calls ConfigurationError; no facade handle is returned,
and the object left in the class-level slot has source and username set but
no session (auth_jira = none), so it is not usable as a facade. -/
theorem invalid_selector_construction_fails
    (st : Settings) (u r : String) :
    (jiraConstruct st ⟨none⟩ u (.invalid r)).1 =
      .error (.valueError ("Invalid source: " ++ r)) ∧
    (jiraConstruct st ⟨none⟩ u (.invalid r)).2.inst =
      some ⟨some (.invalid r), some u, none⟩ :=
  ⟨rfl, rfl⟩

/-- C1: evaluates the singleton constructor at the failing input of the
claim: constructing with (alice, A) and then with (bob, B).  The first
construction stores the shared object with a session bound to backend A and
alice; the second construction returns the SAME shared object re-initialized
in place, so after it the one object every handle aliases carries source B,
username bob and a fresh session bound to backend B — the facade obtained
from the first construction now silently uses a different backend and
session, and two sessions have existed for it over its lifetime, contrary
to the claim. -/
theorem singleton_second_construction_rebinds :
    (jiraConstruct exSettings ⟨none⟩ "alice" (.src .A)).1 = .ok () ∧
    (jiraConstruct exSettings ⟨none⟩ "alice" (.src .A)).2.inst =
      some ⟨some (.src .A), some "alice", some (connect_to_a exSettings "alice")⟩ ∧
    (jiraConstruct exSettings
      ((jiraConstruct exSettings ⟨none⟩ "alice" (.src .A)).2) "bob" (.src .B)).1
      = .ok () ∧
    (jiraConstruct exSettings
      ((jiraConstruct exSettings ⟨none⟩ "alice" (.src .A)).2) "bob" (.src .B)).2.inst
      = some ⟨some (.src .B), some "bob", some (connect_to_b exSettings "bob")⟩ ∧
    connect_to_b exSettings "bob" ≠ connect_to_a exSettings "alice" :=
  ⟨rfl, rfl, rfl, rfl, by decide⟩

/-- C4 counterexample: the claim says normalization never raises when an
optional nested field is absent; but on a batch whose single issue has
fields carrying only summary and status (no priority key), normalization
raises the unhandled KeyError("priority") of the `fields["priority"]`
subscript, failing the whole batch. -/
theorem normalize_missing_priority_counterexample :
    normalize_jira_issues_response (.obj [("issues", .arr
      [.obj [("key", .str "K-1"), ("fields", .obj
        [("summary", .str "S"),
         ("status", .obj [("name", .str "Open")])])]])])
      = .error (.keyError "priority") := rfl

/-- C4 amended: per raw issue, an absent or null reporter and an absent
created field normalize to an explicit None without raising, and a status
or priority OBJECT lacking a "name" key normalizes to None as well; but the
status and priority keys themselves must be present — an issue whose fields
lack the priority key (likewise status) makes normalization raise
KeyError instead of producing an absent value. -/
theorem normalize_optional_fields_amended
    (k s k2 s2 : JVal) (stKvs prKvs stKvs2 : List (String × JVal))
    (hst : lookupKV stKvs "name" = none)
    (hpr : lookupKV prKvs "name" = none) :
    normalize_issue (.obj [("key", k), ("fields", .obj
      [("summary", s), ("status", .obj stKvs), ("priority", .obj prKvs)])]) =
      .ok (.obj [("key", k), ("summary", s), ("reporter", .null),
                 ("status", .null), ("priority", .null), ("created", .null)])
    ∧ normalize_issue (.obj [("key", k2), ("fields", .obj
        [("summary", s2), ("status", .obj stKvs2)])]) =
        .error (.keyError "priority") := by
  constructor
  · simp only [lookupKV] at hst hpr
    simp [normalize_issue, pyGetItem, pyGet, pyTruthy, Bind.bind,
          Except.bind, pure, Except.pure, lookupKV, hst, hpr]
  · rfl

/-- Witness for normalize_optional_fields_amended at concrete issues. -/
theorem normalize_optional_fields_amended_w :
    normalize_issue (.obj [("key", .str "K-2"), ("fields", .obj
      [("summary", .str "S"), ("status", .obj [("id", .num 1)]),
       ("priority", .obj [("id", .num 4)])])]) =
      .ok (.obj [("key", .str "K-2"), ("summary", .str "S"),
                 ("reporter", .null), ("status", .null),
                 ("priority", .null), ("created", .null)]) :=
  (normalize_optional_fields_amended (.str "K-2") (.str "S") (.str "K-3")
    (.str "T") [("id", .num 1)] [("id", .num 4)] [] rfl rfl).1

/-- C8: for every draft (whose product entry, when present, is a dict, as
the TicketDraft contract has it) that is missing a key required by the
selected backend mapping, create_ticket fails with the local KeyError of the
first missing key in kwarg evaluation order — the failure the spec taxonomy
calls ValidationError — and the result is the same for EVERY backend
function, i.e. the error is raised before any network call is made. -/
theorem create_ticket_missing_key_fails_locally
    (src : Source) (u k : String) (kvs : List (String × JVal))
    (hprod : ∀ pv, lookupKV kvs "product" = some pv → ∃ pkvs, pv = JVal.obj pkvs)
    (hk : k ∈ required_draft_keys src) (hm : lookupKV kvs k = none) :
    ∃ k2, k2 ∈ required_draft_keys src ∧ lookupKV kvs k2 = none ∧
      ∀ backend, create_ticket (.src src) u backend (.obj kvs) =
        .error (.keyError k2) := by
  cases src with
  | A =>
    rcases e1 : lookupKV kvs "product_id" with _ | v1
    · refine ⟨"product_id", by decide, e1, fun backend => ?_⟩
      simp [create_ticket, create_ticket_in_a, pyGetItem, Bind.bind,
            Except.bind, e1]
    · rcases e2 : lookupKV kvs "name" with _ | v2
      · refine ⟨"name", by decide, e2, fun backend => ?_⟩
        simp [create_ticket, create_ticket_in_a, pyGetItem, Bind.bind,
              Except.bind, e1, e2]
      · exfalso
        simp [required_draft_keys] at hk
        rcases hk with h | h
        · subst h; rw [hm] at e1; exact Option.noConfusion e1
        · subst h; rw [hm] at e2; exact Option.noConfusion e2
  | B =>
    rcases e1 : lookupKV kvs "name" with _ | v1
    · refine ⟨"name", by decide, e1, fun backend => ?_⟩
      simp [create_ticket, create_ticket_in_b, pyGetItem, Bind.bind,
            Except.bind, e1]
    · rcases e2 : lookupKV kvs "as_a" with _ | v2
      · refine ⟨"as_a", by decide, e2, fun backend => ?_⟩
        simp [create_ticket, create_ticket_in_b, pyGetItem, Bind.bind,
              Except.bind, e1, e2]
      · rcases e3 : lookupKV kvs "i_want" with _ | v3
        · refine ⟨"i_want", by decide, e3, fun backend => ?_⟩
          simp [create_ticket, create_ticket_in_b, pyGetItem, Bind.bind,
                Except.bind, e1, e2, e3]
        · rcases e4 : lookupKV kvs "so_that" with _ | v4
          · refine ⟨"so_that", by decide, e4, fun backend => ?_⟩
            simp [create_ticket, create_ticket_in_b, pyGetItem, Bind.bind,
                  Except.bind, e1, e2, e3, e4]
          · rcases e5 : lookupKV kvs "product" with _ | v5
            · refine ⟨"product", by decide, e5, fun backend => ?_⟩
              simp [create_ticket, create_ticket_in_b, pyGetItem, Bind.bind,
                    Except.bind, e1, e2, e3, e4, e5]
            · obtain ⟨pkvs, rfl⟩ := hprod v5 e5
              rcases e6 : lookupKV kvs "is_high_priority" with _ | v6
              · refine ⟨"is_high_priority", by decide, e6, fun backend => ?_⟩
                simp [create_ticket, create_ticket_in_b, pyGetItem, pyGet,
                      Bind.bind, Except.bind, e1, e2, e3, e4, e5, e6]
              · exfalso
                simp [required_draft_keys] at hk
                rcases hk with h | h | h | h | h | h
                · subst h; rw [hm] at e1; exact Option.noConfusion e1
                · subst h; rw [hm] at e2; exact Option.noConfusion e2
                · subst h; rw [hm] at e3; exact Option.noConfusion e3
                · subst h; rw [hm] at e4; exact Option.noConfusion e4
                · subst h; rw [hm] at e5; exact Option.noConfusion e5
                · subst h; rw [hm] at e6; exact Option.noConfusion e6

/-- Witness for create_ticket_missing_key_fails_locally: a B draft carrying
only a name. -/
theorem create_ticket_missing_key_fails_locally_w :
    ∃ k2, k2 ∈ required_draft_keys Source.B ∧
      lookupKV [("name", JVal.str "N")] k2 = none ∧
      ∀ backend, create_ticket (.src .B) "u" backend
        (.obj [("name", JVal.str "N")]) = .error (.keyError k2) :=
  create_ticket_missing_key_fails_locally .B "u" "as_a" [("name", JVal.str "N")]
    (fun _ h => Option.noConfusion h) (by decide) rfl

end JiraSpec
